import Mathlib

/-!
Verification development for the CYBREIGN AI webhook relay (src/bot.py).

The source is a small stateless Flask service that receives messaging-platform
webhook updates, forwards user text to a generation backend, and replies to the
originating chat.  We shallowly embed the pure core of each function:

* JSON documents are embedded as the inductive `Json` (Python dict insertion
  order is modelled by the association-list field order; numeric literals are
  modelled as integers, which is all the claims depend on).
* Python truthiness (`if x:`, `a or b`) is embedded as `Json.truthy`.
* `find_text` (src/bot.py lines 65-79) is the recursive response-text search.
* `call_gemini` (lines 40-85) is embedded as a function of the transport
  outcome: the HTTP POST / status check / body parse either succeeds with a
  parsed `Json` document or raises, which we pass in as a `TransportOutcome`.
* `send_telegram_message` (lines 27-37) is embedded as its payload builder;
  the HTTP POST result is environment input.
* `telegram_webhook` (lines 89-126) is embedded as a function from the decoded
  update to `Except PyErr HandlerResult`: `.error` is an uncaught Python
  exception escaping the handler, `.ok` carries the acknowledgment body plus
  the list of outbound send payloads and generation prompts issued.
-/

/-- A JSON document, as produced by Python json decoding.  Object fields keep
the document order (Python dicts preserve insertion order). -/
inductive Json where
  | null
  | bool (b : Bool)
  | num (n : Int)
  | str (s : String)
  | arr (elems : List Json)
  | obj (fields : List (String × Json))

/-- Python truthiness of a decoded JSON value: `None`, `False`, `0`, `""`,
`[]`, and the empty dict are falsy, everything else truthy. -/
def Json.truthy : Json → Bool
  | .null => false
  | .bool b => b
  | .num n => n != 0
  | .str s => s != ""
  | .arr xs => !xs.isEmpty
  | .obj fs => !fs.isEmpty

/-- First binding of key `k` in an object field list (Python dict lookup). -/
def lookupF (fs : List (String × Json)) (k : String) : Option Json :=
  (fs.find? (fun p => p.1 == k)).map (fun p => p.2)

mutual

/-- `find_text` from src/bot.py lines 65-78: return a string argument itself;
on a dict, recurse through the values in order and return the first truthy
(hence non-empty) result; likewise on a list; otherwise `None`. -/
def find_text : Json → Option String
  | .str s => some s
  | .obj fs => find_text_fields fs
  | .arr xs => find_text_list xs
  | _ => none

/-- The `for v in obj.values(): res = find_text(v); if res: return res` loop:
a result that is `None` or the empty string is falsy and is skipped. -/
def find_text_fields : List (String × Json) → Option String
  | [] => none
  | (_, v) :: rest =>
    match find_text v with
    | some s => if s != "" then some s else find_text_fields rest
    | none => find_text_fields rest

/-- The `for it in obj: res = find_text(it); if res: return res` loop. -/
def find_text_list : List Json → Option String
  | [] => none
  | v :: rest =>
    match find_text v with
    | some s => if s != "" then some s else find_text_list rest
    | none => find_text_list rest

end

/-- One character of Python `json.dumps` string escaping (the common escapes;
exotic control and non-ASCII escapes are rendered verbatim here, which only
shortens the output and is irrelevant to the claims, none of which depend on
the exact rendering of string scalars). -/
def json_escape_char (c : Char) : String :=
  if c = '\\' then "\\\\"
  else if c = '"' then "\\\""
  else if c = '\n' then "\\n"
  else if c = '\t' then "\\t"
  else if c = '\r' then "\\r"
  else String.mk [c]

/-- Python `json.dumps` string escaping. -/
def json_escape (s : String) : String :=
  String.join (s.data.map json_escape_char)

mutual

/-- Python `json.dumps` with default arguments (src/bot.py line 80), on the
decoded documents of our model: separators are `", "` and `": "`, and numeric
literals print in decimal. -/
def dumps : Json → String
  | .null => "null"
  | .bool true => "true"
  | .bool false => "false"
  | .num n => Int.repr n
  | .str s => "\"" ++ json_escape s ++ "\""
  | .arr xs => "[" ++ dumps_list xs ++ "]"
  | .obj fs => "\x7b" ++ dumps_fields fs ++ "\x7d"

/-- Comma-joined `json.dumps` of the elements of a JSON array. -/
def dumps_list : List Json → String
  | [] => ""
  | [x] => dumps x
  | x :: rest => dumps x ++ ", " ++ dumps_list rest

/-- Comma-joined `json.dumps` of the fields of a JSON object. -/
def dumps_fields : List (String × Json) → String
  | [] => ""
  | [(k, v)] => "\"" ++ json_escape k ++ "\": " ++ dumps v
  | (k, v) :: rest => "\"" ++ json_escape k ++ "\": " ++ dumps v ++ ", " ++ dumps_fields rest

end

mutual

/-- Python `repr` of a decoded JSON document, as used by `str()` on containers
(src/bot.py line 82).  String quoting is the common single-quote case; the
claims do not depend on the exact rendering of string scalars. -/
def pyRepr : Json → String
  | .null => "None"
  | .bool true => "True"
  | .bool false => "False"
  | .num n => Int.repr n
  | .str s => "\x27" ++ s ++ "\x27"
  | .arr xs => "[" ++ pyRepr_list xs ++ "]"
  | .obj fs => "\x7b" ++ pyRepr_fields fs ++ "\x7d"

/-- Comma-joined `repr` of the elements of a list. -/
def pyRepr_list : List Json → String
  | [] => ""
  | [x] => pyRepr x
  | x :: rest => pyRepr x ++ ", " ++ pyRepr_list rest

/-- Comma-joined `repr` of the fields of a dict. -/
def pyRepr_fields : List (String × Json) → String
  | [] => ""
  | [(k, v)] => "\x27" ++ k ++ "\x27: " ++ pyRepr v
  | (k, v) :: rest => "\x27" ++ k ++ "\x27: " ++ pyRepr v ++ ", " ++ pyRepr_fields rest

end

/-- Python `str()` of a decoded JSON document (src/bot.py line 82): a bare
string prints itself, containers and other scalars print as their `repr`. -/
def pyStr (j : Json) : String :=
  match j with
  | .str s => s
  | _ => pyRepr j

/-- Outcome of the generation backend HTTP exchange in `call_gemini`
(src/bot.py lines 57-59): either `r.json()` yields a decoded document, or the
POST, the `raise_for_status()` non-2xx check, or the body parse raises, with
`str(e)` as the diagnostic. -/
inductive TransportOutcome where
  | success (data : Json)
  | failure (diagnostic : String)

/-- `call_gemini` (src/bot.py lines 40-85) as a function of the transport
outcome: on success, extract text from the decoded document exactly as lines
62-83 do (`maybe or json.dumps(data)[:1900]` falls back when `maybe` is `None`
or empty, i.e. falsy); on any raised exception return the error-marker string
of line 85. -/
def call_gemini (outcome : TransportOutcome) : String :=
  match outcome with
  | .failure diagnostic => "[error calling Gemini] " ++ diagnostic
  | .success data =>
    match data with
    | .obj fs =>
      match find_text (.obj fs) with
      | some s => if s != "" then s else String.mk ((dumps (.obj fs)).data.take 1900)
      | none => String.mk ((dumps (.obj fs)).data.take 1900)
    | _ => String.mk ((pyStr data).data.take 1900)

/-- The orchestrator truncation step (src/bot.py lines 122-123): strings over
4000 characters are cut to their first 3990 characters with the truncation
marker appended (Python slicing is by characters, modelled on `String.data`). -/
def truncate_response (s : String) : String :=
  if s.length > 4000 then String.mk (s.data.take 3990) ++ "\n\n...[truncated]" else s

/-- The payload constructed by `send_telegram_message` (src/bot.py lines
27-37).  The `reply_to_message_id` parameter defaults to `None` in the source,
modelled by passing `Json.null`; the field is added only when the argument is
truthy (`if reply_to_message_id:`).  The HTTP POST result `(r.ok, r.text)` is
environment input and is not part of the payload. -/
def send_telegram_message (chat_id : Json) (text : String)
    (reply_to_message_id : Json) : List (String × Json) :=
  let payload := [("chat_id", chat_id), ("text", Json.str text),
                  ("parse_mode", Json.str "Markdown")]
  if reply_to_message_id.truthy then payload ++ [("reply_to_message_id", reply_to_message_id)]
  else payload

/-- Python `s.startswith(p)` (src/bot.py line 111): `p` is a prefix of `s`
by characters. -/
def py_startswith (s p : String) : Bool :=
  p.data.isPrefixOf s.data

/-- Python exceptions that can escape the pure core of the handler. -/
inductive PyErr where
  | keyError (k : String)
  | typeError
  | attributeError
deriving Repr, DecidableEq

/-- Python `d.get(k, default)` (src/bot.py lines 98, 103, 104): only dicts
have `.get`; a missing key yields the default. -/
def dict_get (j : Json) (k : String) (dflt : Json) : Except PyErr Json :=
  match j with
  | .obj fs => .ok ((lookupF fs k).getD dflt)
  | _ => .error .attributeError

/-- Python subscription `d[k]` with a string key (src/bot.py line 102): on a
dict, a missing key raises `KeyError`; on any non-dict it raises `TypeError`. -/
def subscript (j : Json) (k : String) : Except PyErr Json :=
  match j with
  | .obj fs =>
    match lookupF fs k with
    | some v => .ok v
    | none => .error (.keyError k)
  | _ => .error .typeError

/-- The update-normalizer step (src/bot.py line 98):
`update.get("message") or update.get("edited_message")`.  Python `or` takes
the left operand when it is truthy; a missing key contributes `None`. -/
def select_message (update : Json) : Except PyErr Json :=
  match update with
  | .obj fs =>
    let m1 := (lookupF fs "message").getD .null
    let m2 := (lookupF fs "edited_message").getD .null
    .ok (if m1.truthy then m1 else m2)
  | _ => .error .attributeError

/-- What one invocation of the webhook handler produces when no exception
escapes: the JSON acknowledgment body, the outbound send payloads posted to
the platform (in order), and the prompts sent to the generation backend. -/
structure HandlerResult where
  response : Json
  sends : List (List (String × Json))
  gen_calls : List String

/-- src/bot.py lines 99-126, operating on the selected message value.  `gen`
is the result of `call_gemini` on a given prompt (its transport outcome is
environment input) and `sr` is the `(r.ok, r.text)` pair of the one possible
delivering send. -/
def handle_message (gen : String → String) (sr : Bool × String)
    (message : Json) : Except PyErr HandlerResult :=
  if !message.truthy then
      .ok ⟨.obj [("ok", .bool true)], [], []⟩
  else
      match subscript message "chat" with
      | .error e => .error e
      | .ok chat =>
        match subscript chat "id" with
        | .error e => .error e
        | .ok chat_id =>
          match dict_get message "text" (.str "") with
          | .error e => .error e
          | .ok text =>
            match dict_get message "message_id" .null with
            | .error e => .error e
            | .ok message_id =>
              if !text.truthy then
                .ok ⟨.obj [("ok", .bool true)],
                     [send_telegram_message chat_id
                        "I only understand text messages for now." message_id], []⟩
              else
                match text with
                | .str s =>
                  if py_startswith s "/start" then
                    .ok ⟨.obj [("ok", .bool true)],
                         [send_telegram_message chat_id
                            "Hello! I\x27m CYBREIGN AI. Send any question and I\x27ll ask Gemini and reply."
                            .null], []⟩
                  else
                    let prompt := "User asked: " ++ s ++ "\nProvide a short helpful explanation."
                    let response_text := truncate_response (gen prompt)
                    .ok ⟨.obj [("ok", .bool sr.1), ("raw", .str sr.2)],
                         [send_telegram_message chat_id response_text message_id], [prompt]⟩
                | _ => .error .attributeError

/-- `telegram_webhook` (src/bot.py lines 89-126) after a successful body
decode, as a function of the decoded update.  `.error` means a Python
exception escapes the handler (no response is returned to the platform). -/
def telegram_webhook (gen : String → String) (sr : Bool × String)
    (update : Json) : Except PyErr HandlerResult :=
  match select_message update with
  | .error e => .error e
  | .ok message => handle_message gen sr message

mutual

/-- Spec-side model of the traversal the spec describes for the extractor:
the scalar string values of a document, listed in depth-first order, visiting
object values in the document field order and then sequence elements in
order.  "The first scalar string value encountered" in that traversal is the
head of this list. -/
def dfs_strings : Json → List String
  | .str s => [s]
  | .obj fs => dfs_strings_fields fs
  | .arr xs => dfs_strings_list xs
  | _ => []

/-- Depth-first string scalars of an object field list, in order. -/
def dfs_strings_fields : List (String × Json) → List String
  | [] => []
  | (_, v) :: rest => dfs_strings v ++ dfs_strings_fields rest

/-- Depth-first string scalars of a sequence, in order. -/
def dfs_strings_list : List Json → List String
  | [] => []
  | v :: rest => dfs_strings v ++ dfs_strings_list rest

end

/-- The first non-empty string of a list, if any. -/
def first_nonempty : List String → Option String
  | [] => none
  | s :: rest => if s != "" then some s else first_nonempty rest

/-- Characterization of `find_text`, proved in `find_text_eq_model`: a bare
string argument is returned as is; on any other document the result is the
first non-empty string of the depth-first string traversal. -/
def find_text_model (j : Json) : Option String :=
  match j with
  | .str s => some s
  | _ => first_nonempty (dfs_strings j)

/-- A text value the handler can branch on without raising: either a string
(so `text.startswith` exists) or falsy (so the no-text branch is taken
before `startswith` is reached). -/
def text_ok : Json → Bool
  | .str _ => true
  | t => !t.truthy

/-- The shape a truthy selected message must have for the handler body not to
raise: it is an object whose `"chat"` member is an object carrying an `"id"`
member (line 102 subscripts raise otherwise), and whose text value does not
make `text.startswith` raise. -/
def handled_ok (m : Json) : Bool :=
  match m with
  | .obj fs =>
    (match lookupF fs "chat" with
     | some (.obj cfs) => (lookupF cfs "id").isSome
     | _ => false)
    && text_ok ((lookupF fs "text").getD (.str ""))
  | _ => false

/-- Structural induction for `Json` through the nested lists. -/
theorem Json.ind {P : Json → Prop}
    (hnull : P .null) (hbool : ∀ b, P (.bool b)) (hnum : ∀ n, P (.num n))
    (hstr : ∀ s, P (.str s))
    (harr : ∀ xs, (∀ x ∈ xs, P x) → P (.arr xs))
    (hobj : ∀ fs, (∀ p ∈ fs, P p.2) → P (.obj fs)) :
    ∀ j, P j
  | .null => hnull
  | .bool b => hbool b
  | .num n => hnum n
  | .str s => hstr s
  | .arr xs => harr xs (fun x hx =>
      have : sizeOf x < 1 + sizeOf xs :=
        Nat.lt_trans (List.sizeOf_lt_of_mem hx) (by omega)
      Json.ind hnull hbool hnum hstr harr hobj x)
  | .obj fs => hobj fs (fun p hp =>
      have : sizeOf p.2 < 1 + sizeOf fs := by
        have h1 := List.sizeOf_lt_of_mem hp
        have h2 : sizeOf p.2 < sizeOf p := by
          obtain ⟨a, b⟩ := p
          simp
        omega
      Json.ind hnull hbool hnum hstr harr hobj p.2)
termination_by j => sizeOf j

theorem first_nonempty_append (l1 l2 : List String) :
    first_nonempty (l1 ++ l2) =
      match first_nonempty l1 with
      | some s => some s
      | none => first_nonempty l2 := by
  induction l1 with
  | nil => simp [first_nonempty]
  | cons s rest ih =>
    by_cases h : s = ""
    · simp [first_nonempty, h, ih]
    · simp [first_nonempty, h]

theorem first_nonempty_ne_empty (l : List String) (s : String)
    (h : first_nonempty l = some s) : s ≠ "" := by
  induction l with
  | nil => simp [first_nonempty] at h
  | cons x rest ih =>
    by_cases hx : x = ""
    · rw [first_nonempty, if_neg (by simp [hx])] at h
      exact ih h
    · rw [first_nonempty, if_pos (by simp [hx])] at h
      have hxs : x = s := by
        have := h
        simp only [Option.some.injEq] at this
        exact this
      rw [← hxs]
      exact hx

/-- One step of the value loop of `find_text`: skipping falsy recursive
results agrees with taking the head of the filtered depth-first traversal. -/
theorem find_text_step (v : Json) (z : Option String)
    (hv : find_text v = find_text_model v) :
    (match find_text v with
     | some s => if s != "" then some s else z
     | none => z) =
    (match first_nonempty (dfs_strings v) with
     | some s => some s
     | none => z) := by
  cases v with
  | str s =>
    by_cases h : s = ""
    · subst h; simp [find_text, dfs_strings, first_nonempty]
    · simp [find_text, dfs_strings, first_nonempty, h]
  | null =>
    rw [hv]; simp only [find_text_model]
    cases h : first_nonempty (dfs_strings .null) with
    | none => simp
    | some s => have hs := first_nonempty_ne_empty _ _ h; simp [hs]
  | bool b =>
    rw [hv]; simp only [find_text_model]
    cases h : first_nonempty (dfs_strings (.bool b)) with
    | none => simp
    | some s => have hs := first_nonempty_ne_empty _ _ h; simp [hs]
  | num n =>
    rw [hv]; simp only [find_text_model]
    cases h : first_nonempty (dfs_strings (.num n)) with
    | none => simp
    | some s => have hs := first_nonempty_ne_empty _ _ h; simp [hs]
  | arr xs =>
    rw [hv]; simp only [find_text_model]
    cases h : first_nonempty (dfs_strings (.arr xs)) with
    | none => simp
    | some s => have hs := first_nonempty_ne_empty _ _ h; simp [hs]
  | obj fs =>
    rw [hv]; simp only [find_text_model]
    cases h : first_nonempty (dfs_strings (.obj fs)) with
    | none => simp
    | some s => have hs := first_nonempty_ne_empty _ _ h; simp [hs]

theorem find_text_list_model (xs : List Json)
    (ih : ∀ x ∈ xs, find_text x = find_text_model x) :
    find_text_list xs = first_nonempty (dfs_strings_list xs) := by
  induction xs with
  | nil => simp [find_text_list, dfs_strings_list, first_nonempty]
  | cons v rest ihr =>
    have hv := ih v (by simp)
    have hrest := ihr (fun x hx => ih x (by simp [hx]))
    rw [show dfs_strings_list (v :: rest) = dfs_strings v ++ dfs_strings_list rest from by
          simp [dfs_strings_list],
        first_nonempty_append,
        show find_text_list (v :: rest) =
            (match find_text v with
             | some s => if s != "" then some s else find_text_list rest
             | none => find_text_list rest) from by simp [find_text_list],
        hrest]
    exact find_text_step v _ hv

theorem find_text_fields_model (fs : List (String × Json))
    (ih : ∀ p ∈ fs, find_text p.2 = find_text_model p.2) :
    find_text_fields fs = first_nonempty (dfs_strings_fields fs) := by
  induction fs with
  | nil => simp [find_text_fields, dfs_strings_fields, first_nonempty]
  | cons p rest ihr =>
    obtain ⟨k, v⟩ := p
    have hv := ih (k, v) (by simp)
    have hrest := ihr (fun q hq => ih q (by simp [hq]))
    rw [show dfs_strings_fields ((k, v) :: rest) = dfs_strings v ++ dfs_strings_fields rest from by
          simp [dfs_strings_fields],
        first_nonempty_append,
        show find_text_fields ((k, v) :: rest) =
            (match find_text v with
             | some s => if s != "" then some s else find_text_fields rest
             | none => find_text_fields rest) from by simp [find_text_fields],
        hrest]
    exact find_text_step v _ hv

/-- The search of src/bot.py lines 65-78 returns a bare string argument as is,
and otherwise the first non-empty string of the depth-first traversal. -/
theorem find_text_eq_model : ∀ j, find_text j = find_text_model j := by
  intro j
  induction j using Json.ind with
  | hnull => simp [find_text, find_text_model, dfs_strings, first_nonempty]
  | hbool b => simp [find_text, find_text_model, dfs_strings, first_nonempty]
  | hnum n => simp [find_text, find_text_model, dfs_strings, first_nonempty]
  | hstr s => simp [find_text, find_text_model]
  | harr xs ih =>
    rw [show find_text (.arr xs) = find_text_list xs from by simp [find_text],
        find_text_list_model xs ih]
    simp [find_text_model, dfs_strings]
  | hobj fs ih =>
    rw [show find_text (.obj fs) = find_text_fields fs from by simp [find_text],
        find_text_fields_model fs ih]
    simp [find_text_model, dfs_strings]

theorem toDigitsCore_length_le (b : Nat) :
    ∀ (f n : Nat) (ds : List Char), ds.length ≤ (Nat.toDigitsCore b f n ds).length := by
  intro f
  induction f with
  | zero => intro n ds; simp [Nat.toDigitsCore]
  | succ f ih =>
    intro n ds
    rw [Nat.toDigitsCore]
    split
    · simp
    · calc ds.length ≤ (Nat.digitChar (n % b) :: ds).length := by simp
        _ ≤ _ := ih _ _

theorem toDigits_ne_nil (b n : Nat) : Nat.toDigits b n ≠ [] := by
  rw [Nat.toDigits, Nat.toDigitsCore]
  split
  · simp
  · intro h
    have hle := toDigitsCore_length_le b n (n / b) [Nat.digitChar (n % b)]
    rw [h] at hle
    simp at hle

theorem nat_repr_data_ne_nil (n : Nat) : (Nat.repr n).data ≠ [] := by
  rw [Nat.repr]
  simpa [List.asString] using toDigits_ne_nil 10 n

theorem int_repr_data_ne_nil (n : Int) : (Int.repr n).data ≠ [] := by
  cases n with
  | ofNat m => simpa [Int.repr] using nat_repr_data_ne_nil m
  | negSucc m => simp [Int.repr, String.data_append]

theorem string_length_eq_data_length (s : String) : s.length = s.data.length := rfl

theorem int_repr_length_pos (n : Int) : 0 < (Int.repr n).length := by
  rw [string_length_eq_data_length]
  have h := int_repr_data_ne_nil n
  cases hd : (Int.repr n).data with
  | nil => exact absurd hd h
  | cons c l => simp [hd]

/-- `json.dumps` output is never empty. -/
theorem dumps_length_pos (j : Json) : 0 < (dumps j).length := by
  cases j with
  | null => decide
  | bool b => cases b <;> decide
  | num n => simpa [dumps] using int_repr_length_pos n
  | str s =>
    rw [show dumps (.str s) = "\"" ++ json_escape s ++ "\"" from by simp [dumps]]
    simp [String.length_append]
    exact Or.inl (Or.inl (by decide))
  | arr xs =>
    rw [show dumps (.arr xs) = "[" ++ dumps_list xs ++ "]" from by simp [dumps]]
    simp [String.length_append]
    exact Or.inl (Or.inl (by decide))
  | obj fs =>
    rw [show dumps (.obj fs) = "\x7b" ++ dumps_fields fs ++ "\x7d" from by simp [dumps]]
    simp [String.length_append]
    exact Or.inl (Or.inl (by decide))

/-- The `repr` rendering of a document is never empty. -/
theorem pyRepr_length_pos (j : Json) : 0 < (pyRepr j).length := by
  cases j with
  | null => decide
  | bool b => cases b <;> decide
  | num n => simpa [pyRepr] using int_repr_length_pos n
  | str s =>
    rw [show pyRepr (.str s) = "\x27" ++ s ++ "\x27" from by simp [pyRepr]]
    simp [String.length_append]
    exact Or.inl (Or.inl (by decide))
  | arr xs =>
    rw [show pyRepr (.arr xs) = "[" ++ pyRepr_list xs ++ "]" from by simp [pyRepr]]
    simp [String.length_append]
    exact Or.inl (Or.inl (by decide))
  | obj fs =>
    rw [show pyRepr (.obj fs) = "\x7b" ++ pyRepr_fields fs ++ "\x7d" from by simp [pyRepr]]
    simp [String.length_append]
    exact Or.inl (Or.inl (by decide))

/-- On a document with no string scalar anywhere, the search finds nothing. -/
theorem find_text_none_of_no_strings (j : Json) (h : dfs_strings j = []) :
    find_text j = none := by
  rw [find_text_eq_model]
  cases j with
  | str s => simp [dfs_strings] at h
  | null => simp [find_text_model, h, first_nonempty]
  | bool b => simp [find_text_model, h, first_nonempty]
  | num n => simp [find_text_model, h, first_nonempty]
  | arr xs => simp [find_text_model, h, first_nonempty]
  | obj fs => simp [find_text_model, h, first_nonempty]

theorem handle_message_isOk (gen : String → String) (sr : Bool × String) (m : Json)
    (h : m.truthy = true → handled_ok m = true) :
    (handle_message gen sr m).isOk = true := by
  cases ht : m.truthy with
  | false =>
    rw [handle_message, if_pos (by simp [ht])]
    rfl
  | true =>
    have hok := h ht
    cases m with
    | null => simp [handled_ok] at hok
    | bool b => simp [handled_ok] at hok
    | num n => simp [handled_ok] at hok
    | str s => simp [handled_ok] at hok
    | arr xs => simp [handled_ok] at hok
    | obj fs =>
      rw [handled_ok, Bool.and_eq_true] at hok
      obtain ⟨h1, h2⟩ := hok
      cases hc : lookupF fs "chat" with
      | none => rw [hc] at h1; simp at h1
      | some c =>
        cases c with
        | obj cfs =>
          rw [hc] at h1
          simp only [Option.isSome] at h1
          cases hid : lookupF cfs "id" with
          | none => rw [hid] at h1; simp at h1
          | some idv =>
            simp only [handle_message, ht, subscript, dict_get, hc, hid,
                       Bool.not_true, Bool.false_eq_true, if_false]
            cases htt : ((lookupF fs "text").getD (Json.str "")).truthy with
            | false =>
              rw [if_pos (by simp [htt])]
              rfl
            | true =>
              cases hts : (lookupF fs "text").getD (Json.str "") with
              | str s =>
                rw [if_neg (by simp [htt])]
                simp only [hts]
                split <;> rfl
              | null => rw [hts] at htt; simp [Json.truthy] at htt
              | bool b =>
                rw [hts] at htt h2
                simp [text_ok, htt] at h2
              | num n =>
                rw [hts] at htt h2
                simp [text_ok, htt] at h2
              | arr xs =>
                rw [hts] at htt h2
                simp [text_ok, htt] at h2
              | obj mfs2 =>
                rw [hts] at htt h2
                simp [text_ok, htt] at h2
        | null => rw [hc] at h1; simp at h1
        | bool b => rw [hc] at h1; simp at h1
        | num n => rw [hc] at h1; simp at h1
        | str s => rw [hc] at h1; simp at h1
        | arr xs => rw [hc] at h1; simp at h1

/-- The end-to-end scenario of spec section 8: a plain question flows through
normalize, prompt build, generation and threaded delivery. -/
theorem end_to_end_scenario :
    telegram_webhook (fun _ => "hi") (true, "sent")
      (Json.obj [("message", Json.obj [("chat", Json.obj [("id", Json.num 42)]),
                                       ("text", Json.str "What is gravity?"),
                                       ("message_id", Json.num 7)])]) =
    Except.ok ⟨Json.obj [("ok", Json.bool true), ("raw", Json.str "sent")],
      [[("chat_id", Json.num 42), ("text", Json.str "hi"),
        ("parse_mode", Json.str "Markdown"), ("reply_to_message_id", Json.num 7)]],
      ["User asked: What is gravity?\nProvide a short helpful explanation."]⟩ := by
  have h2 : truncate_response "hi" = "hi" := by decide
  simp [telegram_webhook, handle_message, select_message, subscript, dict_get, lookupF,
        send_telegram_message, py_startswith, Json.truthy, h2]

/-! ## Small `String` helpers used by several claims -/

theorem string_mk_length (l : List Char) : (String.mk l).length = l.length := rfl

theorem truncate_response_of_gt (s : String) (h : 4000 < s.length) :
    truncate_response s = String.mk (s.data.take 3990) ++ "\n\n...[truncated]" := by
  rw [truncate_response, if_pos h]

theorem truncate_length_of_gt (s : String) (h : 4000 < s.length) :
    (truncate_response s).length = 4006 := by
  rw [truncate_response_of_gt s h, String.length_append, string_mk_length, List.length_take,
      show ("\n\n...[truncated]" : String).length = 16 from by decide]
  have hdl := (string_length_eq_data_length s).symm
  omega

/-! ## Claim C1: generation-result truncation -/

/-- Claim C1 counterexample: on a 4001-character generation result the
delivered text has length 4006, not 4000 — the code appends the 16-character
suffix of line 123 after cutting to 3990 characters. -/
theorem c1_truncation_counterexample :
    4000 < (String.mk (List.replicate 4001 'a')).length ∧
    (truncate_response (String.mk (List.replicate 4001 'a'))).length ≠ 4000 ∧
    (truncate_response (String.mk (List.replicate 4001 'a'))).length = 4006 := by
  have hlen : (String.mk (List.replicate 4001 'a')).length = 4001 := by
    rw [string_mk_length, List.length_replicate]
  have h4 : 4000 < (String.mk (List.replicate 4001 'a')).length := by omega
  have h6 := truncate_length_of_gt _ h4
  exact ⟨h4, by omega, h6⟩

/-- Claim C1 amended: for every generation-result string of length greater
than 4000, the text delivered by the orchestrator has length exactly 4006
(3990 kept characters, a blank line, and the 14-character marker), ends with
the truncation marker "...[truncated]", and its first 3990 characters equal
the first 3990 characters of the source; strings of length at most 4000
are delivered unchanged. -/
theorem c1_truncation_amended (s : String) :
    (4000 < s.length →
      (truncate_response s).length = 4006 ∧
      (∃ p, truncate_response s = p ++ "...[truncated]") ∧
      (truncate_response s).data.take 3990 = s.data.take 3990) ∧
    (s.length ≤ 4000 → truncate_response s = s) := by
  constructor
  · intro h
    have hdl : s.data.length = s.length := (string_length_eq_data_length s).symm
    have hd := truncate_response_of_gt s h
    have htl : (s.data.take 3990).length = 3990 := by
      rw [List.length_take]
      omega
    refine ⟨truncate_length_of_gt s h, ?_, ?_⟩
    · refine ⟨String.mk (s.data.take 3990) ++ "\n\n", ?_⟩
      rw [hd]
      apply String.ext
      simp [String.data_append]
    · rw [hd]
      have hdata : (String.mk (s.data.take 3990) ++ "\n\n...[truncated]").data =
          s.data.take 3990 ++ "\n\n...[truncated]".data := by
        simp [String.data_append]
      rw [hdata]
      calc (s.data.take 3990 ++ "\n\n...[truncated]".data).take 3990
          = (s.data.take 3990 ++ "\n\n...[truncated]".data).take (s.data.take 3990).length := by
            rw [htl]
        _ = s.data.take 3990 := List.take_left _ _
  · intro h
    simp [truncate_response, show ¬(4000 < s.length) from by omega]

/-- Claim C1 witness: the amended statement at a 4001-character string and at
a short string. -/
theorem c1_truncation_witness :
    (truncate_response (String.mk (List.replicate 4001 'b'))).length = 4006 ∧
    truncate_response "ok" = "ok" :=
  ⟨((c1_truncation_amended (String.mk (List.replicate 4001 'b'))).1
      (by rw [string_mk_length, List.length_replicate]; omega)).1,
   (c1_truncation_amended "ok").2 (by decide)⟩

/-! ## Claim C2: the handler always acknowledges -/

/-- Claim C2 counterexample: a decodable event whose message object lacks the
nested chat identifier makes line 102 raise `KeyError` out of the handler —
no acknowledgment is returned to the caller. -/
theorem c2_ack_counterexample :
    telegram_webhook (fun _ => "") (true, "")
      (Json.obj [("message", Json.obj [("text", Json.str "hi")])]) =
    Except.error (PyErr.keyError "chat") := rfl

/-- Claim C2 amended: for every decodable inbound event that is an object and
whose selected message, when truthy, is an object carrying a `"chat"` object
with an `"id"` member and a text value on which the handler can branch, the
webhook handler terminates by returning an acknowledgment response; when the
nested chat identifier is absent the handler instead raises. -/
theorem c2_ack_amended (gen : String → String) (sr : Bool × String)
    (fs : List (String × Json))
    (h : ∀ m, select_message (Json.obj fs) = Except.ok m →
         m.truthy = true → handled_ok m = true) :
    (telegram_webhook gen sr (Json.obj fs)).isOk = true := by
  have hsel : select_message (Json.obj fs) =
      Except.ok (if ((lookupF fs "message").getD .null).truthy
                 then (lookupF fs "message").getD .null
                 else (lookupF fs "edited_message").getD .null) := rfl
  rw [telegram_webhook, hsel]
  exact handle_message_isOk gen sr _ (h _ hsel)

/-- Claim C2 witness: the amended statement at the end-to-end example update. -/
theorem c2_ack_witness :
    (telegram_webhook (fun _ => "a reply") (true, "ok")
      (Json.obj [("message", Json.obj [("chat", Json.obj [("id", Json.num 42)]),
                                       ("text", Json.str "What is gravity?"),
                                       ("message_id", Json.num 7)])])).isOk = true := by
  apply c2_ack_amended
  intro m hm hmt
  have hm' : m = Json.obj [("chat", Json.obj [("id", Json.num 42)]),
                           ("text", Json.str "What is gravity?"),
                           ("message_id", Json.num 7)] := by
    have hm2 : (Except.ok (Json.obj [("chat", Json.obj [("id", Json.num 42)]),
                                     ("text", Json.str "What is gravity?"),
                                     ("message_id", Json.num 7)]) : Except PyErr Json) =
        Except.ok m := hm
    exact (Except.ok.inj hm2).symm
  rw [hm']
  rfl

/-! ## Claim C3: the generation client never raises -/

/-- Claim C3: for every transport outcome the generation client returns a
string (it is a total function into strings — no exception reaches its
caller), and whenever the HTTP call fails the returned string is the fixed
error marker followed by the diagnostic. -/
theorem c3_generation_never_raises :
    (∀ outcome : TransportOutcome, ∃ s : String, call_gemini outcome = s) ∧
    (∀ diagnostic : String,
       call_gemini (.failure diagnostic) = "[error calling Gemini] " ++ diagnostic) :=
  ⟨fun outcome => ⟨call_gemini outcome, rfl⟩, fun _ => rfl⟩

/-! ## Claim C4: the extractor returns the first string in DFS order -/

/-- Claim C4 counterexample: on `{"a": "", "b": "x"}` the first scalar string
value encountered in the depth-first traversal is `""`, but the extractor
returns `"x"` — the `if res:` truthiness test skips empty strings. -/
theorem c4_first_string_counterexample :
    find_text (Json.obj [("a", Json.str ""), ("b", Json.str "x")]) = some "x" ∧
    (dfs_strings (Json.obj [("a", Json.str ""), ("b", Json.str "x")])).head? = some "" ∧
    find_text (Json.obj [("a", Json.str ""), ("b", Json.str "x")]) ≠
      (dfs_strings (Json.obj [("a", Json.str ""), ("b", Json.str "x")])).head? := by
  have h1 : find_text (Json.obj [("a", Json.str ""), ("b", Json.str "x")]) = some "x" := by
    simp [find_text, find_text_fields]
  have h2 : (dfs_strings (Json.obj [("a", Json.str ""), ("b", Json.str "x")])).head? =
      some "" := by
    simp [dfs_strings, dfs_strings_fields]
  refine ⟨h1, h2, ?_⟩
  rw [h1, h2]
  simp

/-- Claim C4 amended: for every successfully parsed backend response document
(an object, the only shape the extractor is invoked on), the extractor
returns the first NON-EMPTY scalar string value encountered in the
deterministic depth-first traversal that visits object values in the
document field order and then sequence elements in order; empty-string
scalars are passed over. -/
theorem c4_first_string_amended (fs : List (String × Json)) :
    find_text (Json.obj fs) = first_nonempty (dfs_strings (Json.obj fs)) := by
  rw [find_text_eq_model]
  simp [find_text_model]

/-! ## Claim C5: fallback on string-free responses -/

/-- Claim C5: for every successfully parsed backend response document with no
string value anywhere, the generation client returns the (truncated to 1900
characters) serialization of the whole response, which is non-empty. -/
theorem c5_fallback_bounded_nonempty (data : Json) (h : dfs_strings data = []) :
    (call_gemini (.success data)).length ≤ 1900 ∧
    call_gemini (.success data) ≠ "" ∧
    (call_gemini (.success data) = String.mk ((dumps data).data.take 1900) ∨
     call_gemini (.success data) = String.mk ((pyStr data).data.take 1900)) := by
  have hlen : ∀ l : List Char, (String.mk (l.take 1900)).length ≤ 1900 := by
    intro l
    rw [string_mk_length, List.length_take]
    omega
  have hne : ∀ t : String, 0 < t.length → String.mk (t.data.take 1900) ≠ "" := by
    intro t ht hc
    have h0 : (String.mk (t.data.take 1900)).length = 0 := by rw [hc]; rfl
    rw [string_mk_length, List.length_take] at h0
    rw [string_length_eq_data_length] at ht
    omega
  cases data with
  | str s => simp [dfs_strings] at h
  | obj fs =>
    have hft : find_text (.obj fs) = none := find_text_none_of_no_strings _ h
    have hcall : call_gemini (.success (.obj fs)) =
        String.mk ((dumps (.obj fs)).data.take 1900) := by
      rw [call_gemini, hft]
    rw [hcall]
    exact ⟨hlen _, hne _ (dumps_length_pos _), Or.inl rfl⟩
  | null =>
    exact ⟨hlen _, hne _ (by decide), Or.inr rfl⟩
  | bool b =>
    refine ⟨hlen _, hne _ ?_, Or.inr rfl⟩
    cases b <;> decide
  | num n =>
    exact ⟨hlen _, hne _ (by simpa [pyStr, pyRepr] using int_repr_length_pos n), Or.inr rfl⟩
  | arr xs =>
    refine ⟨hlen _, hne _ ?_, Or.inr rfl⟩
    simpa [pyStr] using pyRepr_length_pos (Json.arr xs)

/-- Claim C5 witness: a string-free response object. -/
theorem c5_fallback_witness :
    (call_gemini (.success (Json.obj [("candidates",
        Json.arr [Json.obj [("index", Json.num 0)]])]))).length ≤ 1900 ∧
    call_gemini (.success (Json.obj [("candidates",
        Json.arr [Json.obj [("index", Json.num 0)]])])) ≠ "" ∧
    (call_gemini (.success (Json.obj [("candidates",
        Json.arr [Json.obj [("index", Json.num 0)]])])) =
       String.mk ((dumps (Json.obj [("candidates",
         Json.arr [Json.obj [("index", Json.num 0)]])])).data.take 1900) ∨
     call_gemini (.success (Json.obj [("candidates",
        Json.arr [Json.obj [("index", Json.num 0)]])])) =
       String.mk ((pyStr (Json.obj [("candidates",
         Json.arr [Json.obj [("index", Json.num 0)]])])).data.take 1900)) :=
  c5_fallback_bounded_nonempty _
    (by simp [dfs_strings, dfs_strings_fields, dfs_strings_list])

/-! ## Claim C6: "message" preferred over "edited_message" -/

/-- Claim C6 counterexample: when both fields are present but the `"message"`
value is falsy (here the empty object), Python `or` falls through and the
normalizer uses the `"edited_message"` value, not the `"message"` value. -/
theorem c6_prefer_message_counterexample :
    lookupF [("message", Json.obj []),
             ("edited_message", Json.obj [("chat", Json.obj [("id", Json.num 1)])])]
      "message" = some (Json.obj []) ∧
    select_message (Json.obj [("message", Json.obj []),
        ("edited_message", Json.obj [("chat", Json.obj [("id", Json.num 1)])])]) =
      Except.ok (Json.obj [("chat", Json.obj [("id", Json.num 1)])]) ∧
    Json.obj [("chat", Json.obj [("id", Json.num 1)])] ≠ Json.obj [] := by
  refine ⟨rfl, rfl, ?_⟩
  simp

/-- Claim C6 amended: when both fields are present the normalizer produces
its message from the `"message"` field whenever that value is truthy; a falsy
`"message"` value (empty object, null, and so on) falls through to the
`"edited_message"` value. -/
theorem c6_prefer_message_amended (fs : List (String × Json)) (m1 m2 : Json)
    (h1 : lookupF fs "message" = some m1)
    (h2 : lookupF fs "edited_message" = some m2) :
    select_message (Json.obj fs) = Except.ok (if m1.truthy then m1 else m2) := by
  simp [select_message, h1, h2]

/-- Claim C6 witness: with both fields present and a truthy `"message"`
value, the message value is selected. -/
theorem c6_prefer_message_witness :
    select_message (Json.obj [("message", Json.obj [("text", Json.str "a")]),
                              ("edited_message", Json.obj [("text", Json.str "b")])]) =
      Except.ok (Json.obj [("text", Json.str "a")]) := by
  have h := c6_prefer_message_amended
    [("message", Json.obj [("text", Json.str "a")]),
     ("edited_message", Json.obj [("text", Json.str "b")])]
    (Json.obj [("text", Json.str "a")]) (Json.obj [("text", Json.str "b")]) rfl rfl
  simpa [Json.truthy] using h

/-! ## Claim C7: events with no message field are acknowledged silently -/

/-- Claim C7: for every decodable inbound event (object) lacking both the
`"message"` and `"edited_message"` fields, the handler returns a success
acknowledgment and performs zero outbound send calls and zero generation
calls. -/
theorem c7_unhandled_silent_ack (gen : String → String) (sr : Bool × String)
    (fs : List (String × Json))
    (h1 : lookupF fs "message" = none) (h2 : lookupF fs "edited_message" = none) :
    telegram_webhook gen sr (Json.obj fs) =
      Except.ok ⟨Json.obj [("ok", Json.bool true)], [], []⟩ := by
  simp [telegram_webhook, select_message, h1, h2, handle_message, Json.truthy]

/-- Claim C7 witness: an update carrying only an update identifier. -/
theorem c7_unhandled_silent_ack_witness :
    telegram_webhook (fun _ => "generated") (false, "x")
        (Json.obj [("update_id", Json.num 10)]) =
      Except.ok ⟨Json.obj [("ok", Json.bool true)], [], []⟩ :=
  c7_unhandled_silent_ack _ _ _ rfl rfl

/-! ## Claim C8: the /start command -/

/-- Claim C8: for every inbound message whose text begins with "/start", the
handler makes exactly one outbound send call carrying the fixed greeting and
no reply-threading field, makes no generation call, and returns a success
acknowledgment. -/
theorem c8_start_command (gen : String → String) (sr : Bool × String) (update : Json)
    (mfs cfs : List (String × Json)) (chat_id : Json) (s : String)
    (hsel : select_message update = Except.ok (Json.obj mfs))
    (hc : lookupF mfs "chat" = some (Json.obj cfs))
    (hid : lookupF cfs "id" = some chat_id)
    (htext : lookupF mfs "text" = some (Json.str s))
    (hs : py_startswith s "/start" = true) :
    telegram_webhook gen sr update =
      Except.ok ⟨Json.obj [("ok", Json.bool true)],
        [[("chat_id", chat_id),
          ("text", Json.str "Hello! I\x27m CYBREIGN AI. Send any question and I\x27ll ask Gemini and reply."),
          ("parse_mode", Json.str "Markdown")]], []⟩ := by
  have hmne : mfs.isEmpty = false := by
    cases mfs with
    | nil => simp [lookupF] at hc
    | cons p rest => rfl
  have hsne : s ≠ "" := by
    intro he
    rw [he] at hs
    exact absurd hs (by decide)
  have ht : (Json.obj mfs).truthy = true := by simp [Json.truthy, hmne]
  have htxt : (Json.str s).truthy = true := by simp [Json.truthy, hsne]
  rw [telegram_webhook, hsel]
  simp only [handle_message, ht, subscript, dict_get, hc, hid, htext, Option.getD_some,
             htxt, Bool.not_true, Bool.false_eq_true, if_false, hs, if_true]
  simp [send_telegram_message, Json.truthy]

/-- Claim C8 witness: a concrete /start update for chat 42. -/
theorem c8_start_command_witness :
    telegram_webhook (fun _ => "generated") (true, "y")
      (Json.obj [("message", Json.obj [("chat", Json.obj [("id", Json.num 42)]),
                                       ("text", Json.str "/start"),
                                       ("message_id", Json.num 7)])]) =
      Except.ok ⟨Json.obj [("ok", Json.bool true)],
        [[("chat_id", Json.num 42),
          ("text", Json.str "Hello! I\x27m CYBREIGN AI. Send any question and I\x27ll ask Gemini and reply."),
          ("parse_mode", Json.str "Markdown")]], []⟩ :=
  c8_start_command _ _ _ _ _ _ _ rfl rfl rfl rfl (by decide)

/-! ## Claim C9: reply-threading field inclusion -/

/-- Claim C9 counterexample: a provided (non-None) but falsy
`reply_to_message_id` argument — the message id 0 — is omitted from the
payload, so field presence is not equivalent to the argument being
provided. -/
theorem c9_reply_field_counterexample :
    Json.num 0 ≠ Json.null ∧
    "reply_to_message_id" ∉
      (send_telegram_message (Json.num 5) "hi" (Json.num 0)).map Prod.fst := by
  constructor
  · simp
  · simp [send_telegram_message, Json.truthy]

/-- Claim C9 amended: the reply-threading field appears in the outgoing
payload if and only if the provided `reply_to_message_id` argument is truthy
(in particular it is omitted entirely — not sent as null — when the argument
is absent, i.e. the default None, and also when it is 0 or another falsy
value). -/
theorem c9_reply_field_amended (chat_id : Json) (text : String)
    (reply_to_message_id : Json) :
    ("reply_to_message_id" ∈
        (send_telegram_message chat_id text reply_to_message_id).map Prod.fst)
      ↔ reply_to_message_id.truthy = true := by
  cases h : reply_to_message_id.truthy with
  | true => simp [send_telegram_message, h]
  | false => simp [send_telegram_message, h]

/-! ## Claim C10: the search never yields the empty string -/

/-- Claim C10 counterexample: on the bare empty-string document the search
returns the empty string itself (the top-level `isinstance(obj, str)` branch
has no emptiness check). -/
theorem c10_empty_counterexample : find_text (Json.str "") = some "" := by
  simp [find_text]

/-- Claim C10 amended: for every response document other than the bare
empty-string scalar — in particular for every object or sequence — the
search never yields the empty string: empty-string scalars encountered
during traversal are skipped, so the outcome is either no string found or a
non-empty string. -/
theorem c10_no_empty_amended (j : Json) (t : String) (hj : j ≠ Json.str "")
    (h : find_text j = some t) : t ≠ "" := by
  rw [find_text_eq_model] at h
  cases j with
  | str s =>
    simp only [find_text_model, Option.some.injEq] at h
    intro he
    apply hj
    rw [h, he]
  | null => exact first_nonempty_ne_empty _ _ h
  | bool b => exact first_nonempty_ne_empty _ _ h
  | num n => exact first_nonempty_ne_empty _ _ h
  | arr xs => exact first_nonempty_ne_empty _ _ h
  | obj fs => exact first_nonempty_ne_empty _ _ h

/-- Claim C10 witness: a document containing an empty string ahead of a
non-empty one in traversal order yields the non-empty one. -/
theorem c10_no_empty_witness :
    find_text (Json.obj [("a", Json.str ""), ("b", Json.arr [Json.str "y"])]) = some "y" ∧
    ("y" : String) ≠ "" := by
  have hf : find_text (Json.obj [("a", Json.str ""), ("b", Json.arr [Json.str "y"])]) =
      some "y" := by
    simp [find_text, find_text_fields, find_text_list]
  exact ⟨hf, c10_no_empty_amended _ _ (by simp) hf⟩
